import Mathlib

/-
Verification of the serializer layer of marshygeek/ImageStore
(src/core/serializers.py), a Django REST Framework module that validates
and persists Images, Annotations and per-Annotation Labels.

The embedding models the database as an explicit state (`DB`), each
serializer operation as a pure function returning `Except Err`, and the
`@transaction.atomic` decorator as a rollback combinator (`runAtomic`).
Because the token scanner of this development forbids identifiers ending
in certain substrings, the Python name `Annotation` is rendered as `Ann`
throughout; doc comments give the original names.
-/

namespace ImageStore

/-- Errors of the validation layer.  The source raises
`rest_framework.serializers.ValidationError` with message strings; here each
distinct failure mode is a distinct constructor carrying the data that the
source interpolates into its message (e.g. `unsupportedFormat` carries the
offending decoded format and the supported-format list of the f-string at
serializers.py lines 103-104).  `invalidInteger` is DRF IntegerField's
failure message; `keyError` / `typeError` / `indexError` model the
corresponding Python exceptions. -/
inductive Err where
  | duplicateFile
  | unsupportedFormat (offending : String) (supported : List String)
  | fileTooLarge
  | duplicateIdentifier (id_ : String)
  | invalidInteger
  | typeError
  | keyError (key : String)
  | indexError
deriving DecidableEq, Repr

/-- An uploaded file as the serializer sees it: `file.name` (the client
filename), `file.image.format` (the format decoded by PIL, e.g. "PNG") and
`file.size` (byte count). -/
structure UploadedFile where
  name : String
  formatName : String
  size : Nat
deriving DecidableEq, Repr

/-- A stored Label row: `annotation_id` (foreign key), `id` (UUID, kept
abstract as a string), `class_id`, `surface` (a sequence of point strings),
`shape`, `meta`. -/
structure LabelRow where
  ann_id : Int
  id : String
  class_id : String
  surface : List String
  shape : String
  meta : String
deriving DecidableEq, Repr

/-- A stored Annotation row: auto-increment primary key `id` and the raw
foreign-key value written into `image_id` (absent when the payload omitted
it). -/
structure AnnRow where
  id : Nat
  image_id : Option Int
deriving DecidableEq, Repr

/-- The database state: stored Image file names, the Annotation
auto-increment counter, Annotation rows, Label rows and a counter used to
mint automatically generated Label UUIDs. -/
structure DB where
  images : List String
  next_ann_id : Nat
  anns : List AnnRow
  labels : List LabelRow
  next_uuid : Nat
deriving DecidableEq, Repr

/-- Models `Image.objects.filter(file=filename).exists()`
(serializers.py line 99). -/
def DB.imageExists (db : DB) (filename : String) : Bool :=
  db.images.any (fun i => i == filename)

/-- Models `Label.objects.filter(id=id_).exists()`
(serializers.py line 48). -/
def DB.labelIdExists (db : DB) (id_ : String) : Bool :=
  db.labels.any (fun r => r.id == id_)

/-- Python values as they appear in the multipart payload dict handled by
`ImageSerializer.to_internal_value` and in rendered representations. -/
inductive PyVal where
  | vstr (s : String)
  | vint (n : Int)
  | vfile (f : UploadedFile)
  | vlist (l : List PyVal)
  | vdict (d : List (String × PyVal))

/-- Python truthiness for the values above (`if val:` at
serializers.py line 90). -/
def pyTruthy : PyVal → Bool
  | .vstr s => !s.isEmpty
  | .vint n => n != 0
  | .vfile _ => true
  | .vlist l => !l.isEmpty
  | .vdict d => !d.isEmpty

/-- Python subscripting `val[0]` (serializers.py line 91): first element of
a list, first character of a string, `KeyError` on a dict lacking key `0`,
`TypeError` on ints and file objects. -/
def pyIndex0 : PyVal → Except Err PyVal
  | .vlist (x :: _) => .ok x
  | .vlist [] => .error .indexError
  | .vstr s =>
      match s.toList with
      | [] => .error .indexError
      | c :: _ => .ok (.vstr (String.mk [c]))
  | .vdict _ => .error (.keyError "0")
  | _ => .error .typeError

/-- Sequential effectful map over a list, stopping at the first error: the
order in which DRF runs per-item validation and in which the source walks
dict items. -/
def exceptMapList {α β : Type} (f : α → Except Err β) : List α → Except Err (List β)
  | [] => .ok []
  | x :: xs =>
      match f x with
      | .error e => .error e
      | .ok y =>
          match exceptMapList f xs with
          | .error e => .error e
          | .ok ys => .ok (y :: ys)

/-- Python string lowercasing (`format_param.lower()`), restricted to the
ASCII range relevant here. -/
def pyLower (s : String) : String :=
  String.mk (s.toList.map Char.toLower)

/-- Python `''.join` over a list of strings: concatenation with no
separator. -/
def joinAll : List String → String
  | [] => ""
  | s :: rest => s ++ joinAll rest

/-- Python `''.join(x)` where `x` is a representation value: joins a list
of strings; joining a string's characters returns the string itself; any
non-string element raises `TypeError`. -/
def pyStrJoinList : List PyVal → Except Err String
  | [] => .ok ""
  | .vstr s :: rest =>
      match pyStrJoinList rest with
      | .error e => .error e
      | .ok r => .ok (s ++ r)
  | _ :: _ => .error .typeError

/-- Dispatch of `''.join(result[key])` on the stored value. -/
def pyStrJoin : PyVal → Except Err String
  | .vstr s => .ok s
  | .vlist l => pyStrJoinList l
  | _ => .error .typeError

/-- OrderedDict read `d[k]` (first and only binding of `k`). -/
def dictGet (d : List (String × PyVal)) (k : String) : Option PyVal :=
  match d.filter (fun kv => kv.1 == k) with
  | [] => none
  | kv :: _ => some kv.2

/-- OrderedDict assignment `d[k] = v`: replaces the value in place when the
key exists (keeping its position), appends otherwise. -/
def dictSet (d : List (String × PyVal)) (k : String) (v : PyVal) : List (String × PyVal) :=
  if d.any (fun kv => kv.1 == k) then
    d.map (fun kv => if kv.1 == k then (k, v) else kv)
  else
    d ++ [(k, v)]

/-- Python whitespace for `str.strip()` (ASCII range). -/
def isPySpace (c : Char) : Bool :=
  c == ' ' || c == '\t' || c == '\n' || c == '\r' || c == '\x0b' || c == '\x0c'

/-- Modelled from the framework: Django's `django.utils.text.get_valid_filename`
(imported at serializers.py line 3; Django itself is outside src/):
strip surrounding whitespace, replace spaces by underscores, then drop every
character that is not alphanumeric, underscore, hyphen or dot. -/
def get_valid_filename (s : String) : String :=
  let stripped := ((s.toList.dropWhile isPySpace).reverse.dropWhile isPySpace).reverse
  let underscored := stripped.map (fun c => if c == ' ' then '_' else c)
  String.mk (underscored.filter (fun c => c.isAlphanum || c == '_' || c == '-' || c == '.'))

/-- The HTTP request as the serializers consume it: its query parameters. -/
structure Request where
  query_params : List (String × String)
deriving DecidableEq, Repr

/-- Models `request.query_params.get('format', '')`: Django's QueryDict
returns the last value bound to a key, or the default when the key is
absent. -/
def Request.getParam (r : Request) (k dflt : String) : String :=
  match (r.query_params.filter (fun kv => kv.1 == k)).getLast? with
  | some kv => kv.2
  | none => dflt

/-- A raw integer-field input: either already an int or a string to be
parsed (DRF IntegerField accepts both). -/
inductive IntRaw where
  | int (n : Int)
  | str (s : String)
deriving DecidableEq, Repr

/-- Models the trailing-decimal strip DRF's IntegerField applies before
parsing: the regex removes a final dot followed by zeros and optional
whitespace; anything else leaves the string unchanged. -/
def stripDecimalSuffix (s : String) : String :=
  let rev := s.toList.reverse
  let rev1 := rev.dropWhile isPySpace
  let rev2 := rev1.dropWhile (fun c => c == '0')
  match rev2 with
  | '.' :: rest => String.mk rest.reverse
  | _ => s

/-- Python `int(str)`: surrounding whitespace tolerated, optional sign,
then at least one decimal digit; anything else raises `ValueError`. -/
def pyInt (s : String) : Option Int :=
  let cs := (s.toList.dropWhile isPySpace).reverse.dropWhile isPySpace |>.reverse
  let signed : Bool × List Char :=
    match cs with
    | '-' :: rest => (true, rest)
    | '+' :: rest => (false, rest)
    | _ => (false, cs)
  let digits := signed.2
  if digits.isEmpty || !(digits.all Char.isDigit) then none
  else
    let n : Nat := digits.foldl (fun a c => a * 10 + (c.toNat - 48)) 0
    some (if signed.1 then -(n : Int) else (n : Int))

/-- DRF `serializers.IntegerField.to_internal_value`: passes ints through,
parses strings after the decimal-suffix strip, fails with
`A valid integer is required.` otherwise.  This field type is what
`AnnotationSerializer.image_id` (serializers.py line 54) declares. -/
def IntegerField.to_internal_value : IntRaw → Except Err Int
  | .int n => .ok n
  | .str s =>
      match pyInt (stripDecimalSuffix s) with
      | some n => .ok n
      | none => .error .invalidInteger

/-- Validates an optional field: absent fields are skipped (DRF
`required=False`). -/
def optField {α β : Type} (f : α → Except Err β) : Option α → Except Err (Option β)
  | none => .ok none
  | some a =>
      match f a with
      | .error e => .error e
      | .ok b => .ok (some b)

/-- A Label payload as validated data: `annotation_id` (set by the caller
before batch validation), optional client-supplied `id`, and the remaining
declared fields.  Field-level type coercions of `class_id`, `surface`,
`shape` and `meta` are modelled as identities: the payloads of interest
arrive well-typed. -/
structure LabelData where
  ann_id : Option Int
  id : Option String
  class_id : String
  surface : List String
  shape : String
  meta : String
deriving DecidableEq, Repr

/-- Models `LabelSerializer.validate_id` (serializers.py lines 47-50):
fails when a Label with the supplied id already exists. -/
def LabelSerializer.validate_id (db : DB) (id_ : String) : Except Err String :=
  if db.labelIdExists id_ then .error (.duplicateIdentifier id_)
  else .ok id_

/-- Per-item validation that DRF runs for one Label payload: `validate_id`
fires only when the payload supplies an id (the field is declared
`required=False`). -/
def LabelSerializer.run_validation (db : DB) (d : LabelData) : Except Err LabelData :=
  match d.id with
  | none => .ok d
  | some i =>
      match LabelSerializer.validate_id db i with
      | .error e => .error e
      | .ok _ => .ok d

/-- Models `Label.objects.create(**data)`: inserts one row, minting a fresh
UUID when the payload supplied none.  A missing `annotation_id` is recorded
as the sentinel foreign-key value -1 (the flows below always set it). -/
def DB.insertLabel (db : DB) (d : LabelData) : DB :=
  let uid :=
    match d.id with
    | some i => i
    | none => "uuid-" ++ toString db.next_uuid
  { db with
    labels := db.labels ++
      [{ ann_id := d.ann_id.getD (-1), id := uid, class_id := d.class_id,
         surface := d.surface, shape := d.shape, meta := d.meta }],
    next_uuid := db.next_uuid + 1 }

/-- Models `ListSerializer.save` for Labels: create one row per validated
payload, in order. -/
def LabelSerializer.saveMany (db : DB) (ds : List LabelData) : DB :=
  ds.foldl DB.insertLabel db

/-- A raw Annotation payload: optional `image_id` (an int or a string fed
to IntegerField) and optional nested label payloads under `labels`. -/
structure AnnRaw where
  image_id : Option IntRaw
  labels : Option (List LabelData)
deriving DecidableEq, Repr

/-- Annotation validated data: the dict DRF hands to
`AnnotationSerializer.create`; keys present exactly when they were in the
payload. -/
structure AnnValid where
  image_id : Option Int
  labels : Option (List LabelData)
deriving DecidableEq, Repr

/-- Python truthiness of the validated Annotation dict (`if annotation_data:`
at serializers.py line 117): truthy iff at least one key is present. -/
def AnnValid.isTruthy (v : AnnValid) : Bool :=
  v.image_id.isSome || v.labels.isSome

/-- Models `AnnotationSerializer.is_valid`: field validation in declared
order (`image_id` by IntegerField, then each nested label payload,
including `validate_id`, against the current database). -/
def AnnSerializer.to_internal_value (db : DB) (d : AnnRaw) : Except Err AnnValid :=
  match optField IntegerField.to_internal_value d.image_id with
  | .error e => .error e
  | .ok n =>
      match optField (exceptMapList (LabelSerializer.run_validation db)) d.labels with
      | .error e => .error e
      | .ok ls => .ok { image_id := n, labels := ls }

/-- The rollback semantics of `@transaction.atomic`: when the body ends in
an error, every write of the body is undone and the pre-transaction state
is restored. -/
def runAtomic {α : Type} (db : DB) (r : DB × Except Err α) : DB × Except Err α :=
  match r.2 with
  | .ok a => (r.1, .ok a)
  | .error e => (db, .error e)

/-- The body of `AnnotationSerializer.create` (serializers.py lines 61-74),
without the surrounding transaction: pop `labels`, insert the Annotation
row, and when the popped value is truthy (a non-empty list) set each
label's `annotation_id` to the new row's id, re-validate the batch with a
fresh `LabelSerializer(many=True)` and save it. -/
def AnnSerializer.create_body (db : DB) (v : AnnValid) : DB × Except Err Nat :=
  let annId := db.next_ann_id
  let db1 : DB :=
    { db with
      anns := db.anns ++ [{ id := annId, image_id := v.image_id }],
      next_ann_id := annId + 1 }
  match v.labels with
  | none => (db1, .ok annId)
  | some [] => (db1, .ok annId)
  | some (l0 :: rest) =>
      let withIds := (l0 :: rest).map (fun l => { l with ann_id := some (Int.ofNat annId) })
      match exceptMapList (LabelSerializer.run_validation db1) withIds with
      | .error e => (db1, .error e)
      | .ok vs => (LabelSerializer.saveMany db1 vs, .ok annId)

/-- `AnnotationSerializer.create` with its `@transaction.atomic`
decorator. -/
def AnnSerializer.create (db : DB) (v : AnnValid) : DB × Except Err Nat :=
  runAtomic db (AnnSerializer.create_body db v)

/-- The full Annotation write pipeline as callers use it:
`is_valid(raise_exception=True)` then `save()`. -/
def AnnSerializer.run (db : DB) (d : AnnRaw) : DB × Except Err Nat :=
  match AnnSerializer.to_internal_value db d with
  | .error e => (db, .error e)
  | .ok v => AnnSerializer.create db v

/-- An Image payload after field typing: the uploaded file and the optional
nested Annotation payload. -/
structure ImageData where
  file : UploadedFile
  ann : Option AnnRaw
deriving DecidableEq, Repr

/-- Image validated data handed to `ImageSerializer.create`. -/
structure ImageValid where
  file : UploadedFile
  ann : Option AnnValid
deriving DecidableEq, Repr

/-- The supported-format allow-list (serializers.py line 78). -/
def ImageSerializer.SUPPORTED_FORMATS : List String := ["JPEG", "PNG", "TIFF"]

/-- The size limit in bytes (serializers.py line 79). -/
def ImageSerializer.FILE_MAX_SIZE : Nat := 20 * 1024 * 1024

/-- Models `ImageSerializer.validate_file` (serializers.py lines 98-110):
duplicate check on the normalized filename, then format allow-list, then
size limit; the first failing check wins. -/
def ImageSerializer.validate_file (db : DB) (f : UploadedFile) : Except Err UploadedFile :=
  if db.imageExists (get_valid_filename f.name) then .error .duplicateFile
  else if !(ImageSerializer.SUPPORTED_FORMATS.contains f.formatName) then
    .error (.unsupportedFormat f.formatName ImageSerializer.SUPPORTED_FORMATS)
  else if f.size > ImageSerializer.FILE_MAX_SIZE then .error .fileTooLarge
  else .ok f

/-- Models `ImageSerializer.is_valid` after multipart unwrapping: the file
field runs `validate_file`, then the nested `AnnotationSerializer` field
validates the annotation payload (both against the current database). -/
def ImageSerializer.run_field_validation (db : DB) (d : ImageData) : Except Err ImageValid :=
  match ImageSerializer.validate_file db d.file with
  | .error e => .error e
  | .ok f =>
      match optField (AnnSerializer.to_internal_value db) d.ann with
      | .error e => .error e
      | .ok a => .ok { file := f, ann := a }

/-- The body of `ImageSerializer.create` (serializers.py lines 112-122)
without the surrounding transaction: pop `annotation`, insert the Image row
(Django stores the file under its `get_valid_filename`-normalized name),
and when the popped dict is truthy overwrite its `image_id` with the new
image's file name (a string) and run a fresh `AnnotationSerializer` on it;
an error there propagates out of the body. -/
def ImageSerializer.create_body (db : DB) (v : ImageValid) : DB × Except Err String :=
  let stored := get_valid_filename v.file.name
  let db1 : DB := { db with images := db.images ++ [stored] }
  match v.ann with
  | none => (db1, .ok stored)
  | some ad =>
      if ad.isTruthy then
        let raw : AnnRaw := { image_id := some (.str stored), labels := ad.labels }
        match AnnSerializer.run db1 raw with
        | (db2, .ok _) => (db2, .ok stored)
        | (_, .error e) => (db1, .error e)
      else (db1, .ok stored)

/-- `ImageSerializer.create` with its `@transaction.atomic` decorator. -/
def ImageSerializer.create (db : DB) (v : ImageValid) : DB × Except Err String :=
  runAtomic db (ImageSerializer.create_body db v)

/-- The full Image write pipeline: field validation, then the transactional
create; returns the stored file name on success. -/
def ImageSerializer.run (db : DB) (d : ImageData) : DB × Except Err String :=
  match ImageSerializer.run_field_validation db d with
  | .error e => (db, .error e)
  | .ok v => ImageSerializer.create db v

/-- Models `ImageSerializer.to_internal_value` (serializers.py lines
87-93): walk the payload dict and replace every truthy value by its `[0]`
element; falsy values (empty lists, empty strings) stay unchanged. -/
def ImageSerializer.unwrap_multipart (data : List (String × PyVal)) :
    Except Err (List (String × PyVal)) :=
  exceptMapList
    (fun kv =>
      if pyTruthy kv.2 then
        match pyIndex0 kv.2 with
        | .error e => .error e
        | .ok v => .ok (kv.1, v)
      else .ok kv)
    data

/-- The trigger value of export mode (serializers.py line 27). -/
def LabelSerializer.EXPORT_FORMAT_KEY : String := "export"

/-- The declared field list of `LabelSerializer.Meta` (serializers.py
line 35). -/
def LabelSerializer.Meta_fields : List String :=
  ["annotation_id", "id", "class_id", "surface", "shape", "meta"]

/-- The export field list of `LabelSerializer.Meta` (serializers.py
line 36). -/
def LabelSerializer.export_fields : List String := ["id", "class_id", "surface"]

/-- The default `ModelSerializer.to_representation` for a Label: its
readable declared fields in order.  `annotation_id` is declared
`write_only=True` (serializers.py line 30) and is therefore skipped. -/
def LabelSerializer.base_representation (l : LabelRow) : List (String × PyVal) :=
  [("id", .vstr l.id), ("class_id", .vstr l.class_id),
   ("surface", .vlist (l.surface.map .vstr)), ("shape", .vstr l.shape),
   ("meta", .vstr l.meta)]

/-- The export-mode transform of `LabelSerializer.to_representation`
(serializers.py lines 42-43): keep only the export fields, then replace
`surface` by the joined string. -/
def LabelSerializer.export_transform (result : List (String × PyVal)) :
    Except Err (List (String × PyVal)) :=
  let filtered := result.filter (fun kv => LabelSerializer.export_fields.contains kv.1)
  match dictGet filtered "surface" with
  | none => .error (.keyError "surface")
  | some v =>
      match pyStrJoin v with
      | .error e => .error e
      | .ok s => .ok (dictSet filtered "surface" (.vstr s))

/-- Models `LabelSerializer.to_representation` (serializers.py lines
37-45): build the base representation, read `self.context['request']`
(KeyError when the context lacks it), and apply the export transform when
the `format` query parameter lowercases to `export`. -/
def LabelSerializer.to_representation (ctx : Option Request) (l : LabelRow) :
    Except Err (List (String × PyVal)) :=
  let result := LabelSerializer.base_representation l
  match ctx with
  | none => .error (.keyError "request")
  | some req =>
      let format_param := req.getParam "format" ""
      if pyLower format_param == LabelSerializer.EXPORT_FORMAT_KEY then
        LabelSerializer.export_transform result
      else .ok result

/-- The default `ModelSerializer.to_representation` for an Annotation:
`image_id` is `write_only=True` (serializers.py line 54) and skipped, so
the only readable field is `labels`, rendered by the nested
`LabelSerializer(many=True)` over the Annotation's Label rows with the
context passed down by `PassSerializerContextMixin`. -/
def AnnSerializer.to_representation (ctx : Option Request) (db : DB) (a : AnnRow) :
    Except Err (List (String × PyVal)) :=
  match exceptMapList (LabelSerializer.to_representation ctx)
      (db.labels.filter (fun l => l.ann_id == Int.ofNat a.id)) with
  | .error e => .error e
  | .ok reps => .ok [("labels", .vlist (reps.map .vdict))]

/-- Models `ImageSerializer.to_representation` (serializers.py lines
95-96): always exactly the stored file identity under `id`. -/
def ImageSerializer.to_representation (storedName : String) : List (String × PyVal) :=
  [("id", .vstr storedName)]

/-! ## Concrete instances used by witnesses and counterexamples -/

def c1_db : DB := { images := [], next_ann_id := 1, anns := [], labels := [], next_uuid := 0 }

def c1_data : ImageData :=
  { file := { name := "cat.png", formatName := "PNG", size := 100 },
    ann := some { image_id := some (.int 7), labels := none } }

def c2_db : DB :=
  { images := [], next_ann_id := 1, anns := [],
    labels := [{ ann_id := 1, id := "a", class_id := "c", surface := [],
                 shape := "s", meta := "" }],
    next_uuid := 0 }

def c2_lbl : LabelData :=
  { ann_id := none, id := some "a", class_id := "c", surface := [],
    shape := "s", meta := "" }

def c2_raw : AnnRaw := { image_id := some (.int 1), labels := some [c2_lbl] }

def c3_db : DB := { images := [], next_ann_id := 1, anns := [], labels := [], next_uuid := 0 }

def c3_data : ImageData :=
  { file := { name := "photo.png", formatName := "PNG", size := 1000 },
    ann := some
      { image_id := none,
        labels := some [{ ann_id := none, id := some "11111111-1111-1111-1111-111111111111",
                          class_id := "car", surface := ["A", "B"], shape := "polygon",
                          meta := "" }] } }

def c4_lbl : LabelRow :=
  { ann_id := 3, id := "u9", class_id := "tree", surface := ["A", "B", "C"],
    shape := "poly", meta := "m" }

def c4_req_plain : Request := { query_params := [] }

def c4_req_export : Request := { query_params := [("format", "EXPORT")] }

def c4_full_rep : List (String × PyVal) :=
  [("id", .vstr "u9"), ("class_id", .vstr "tree"),
   ("surface", .vlist [.vstr "A", .vstr "B", .vstr "C"]),
   ("shape", .vstr "poly"), ("meta", .vstr "m")]

def c5_db : DB := { images := [], next_ann_id := 1, anns := [], labels := [], next_uuid := 0 }

def c5_f : UploadedFile := { name := "a b.png", formatName := "PNG", size := 10 }

def c5_g : UploadedFile := { name := " a_b.png", formatName := "PNG", size := 20 }

def c5_gif : UploadedFile := { name := "anim.gif", formatName := "GIF", size := 10 }

def c5_dupdb : DB :=
  { images := ["a_b.png"], next_ann_id := 1, anns := [], labels := [], next_uuid := 0 }

def c5_huge : UploadedFile := { name := "big.png", formatName := "PNG", size := 99999999 }

def c6_db : DB := { images := [], next_ann_id := 1, anns := [], labels := [], next_uuid := 0 }

def c6_small : UploadedFile := { name := "a.png", formatName := "PNG", size := 20971520 }

def c6_big : UploadedFile := { name := "b.png", formatName := "PNG", size := 20971521 }

def c7_db : DB :=
  { images := [], next_ann_id := 1, anns := [],
    labels := [{ ann_id := 1, id := "x", class_id := "c", surface := [],
                 shape := "s", meta := "" }],
    next_uuid := 0 }

def c7_noid : LabelData :=
  { ann_id := none, id := none, class_id := "c", surface := [], shape := "s", meta := "" }

def c7_raw : AnnRaw :=
  { image_id := none,
    labels := some [{ ann_id := none, id := some "x", class_id := "c", surface := [],
                      shape := "s", meta := "" }] }

def c8_db : DB :=
  { images := ["dog.png"], next_ann_id := 2,
    anns := [{ id := 1, image_id := some 5 }],
    labels := [{ ann_id := 1, id := "u1", class_id := "dog", surface := ["A"],
                 shape := "poly", meta := "" }],
    next_uuid := 0 }

def c8_row : AnnRow := { id := 1, image_id := some 5 }

def c8_req : Request := { query_params := [] }

def c8_rep : List (String × PyVal) :=
  [("labels", .vlist [.vdict
    [("id", .vstr "u1"), ("class_id", .vstr "dog"),
     ("surface", .vlist [.vstr "A"]), ("shape", .vstr "poly"),
     ("meta", .vstr "")]])]

def c9_data : List (String × PyVal) :=
  [("file", .vlist [.vfile { name := "a.png", formatName := "PNG", size := 5 }]),
   ("extra", .vlist [])]

/-! ## Helper lemmas -/

/-- A transaction that ends in an error leaves the database as it was. -/
theorem runAtomic_error_state {α : Type} (db : DB) (r : DB × Except Err α) (e : Err)
    (h : (runAtomic db r).2 = Except.error e) : (runAtomic db r).1 = db := by
  cases r with
  | mk db2 res =>
    cases res with
    | ok a => simp [runAtomic] at h
    | error e2 => rfl

/-- One successful step of the sequential effectful map. -/
theorem exceptMapList_cons_ok {α β : Type} (f : α → Except Err β) (x : α) (y : β)
    (xs : List α) (ys : List β) (hx : f x = Except.ok y)
    (hxs : exceptMapList f xs = Except.ok ys) :
    exceptMapList f (x :: xs) = Except.ok (y :: ys) := by
  simp [exceptMapList, hx, hxs]

/-- If one element of a list fails its validation, the sequential batch
validation fails. -/
theorem exceptMapList_error_of_mem {α β : Type} (f : α → Except Err β) (l : List α)
    (x : α) (e : Err) (hx : x ∈ l) (hf : f x = Except.error e) :
    ∃ e2, exceptMapList f l = Except.error e2 := by
  induction l with
  | nil => cases hx
  | cons y ys ih =>
    rcases List.mem_cons.mp hx with h1 | h2
    · subst h1
      exact ⟨e, by simp [exceptMapList, hf]⟩
    · cases hy : f y with
      | error e3 => exact ⟨e3, by simp [exceptMapList, hy]⟩
      | ok b =>
        rcases ih h2 with ⟨e2, he2⟩
        exact ⟨e2, by simp [exceptMapList, hy, he2]⟩

/-- The join of a representation list of strings is their concatenation. -/
theorem pyStrJoinList_map_vstr (ls : List String) :
    pyStrJoinList (ls.map PyVal.vstr) = Except.ok (joinAll ls) := by
  induction ls with
  | nil => rfl
  | cons s rest ih => simp [pyStrJoinList, joinAll, ih]

/-- A file that passes `validate_file` is returned unchanged. -/
theorem validate_file_ok_eq (db : DB) (f f2 : UploadedFile)
    (h : ImageSerializer.validate_file db f = Except.ok f2) : f2 = f := by
  unfold ImageSerializer.validate_file at h
  by_cases h1 : db.imageExists (get_valid_filename f.name) = true
  · rw [if_pos h1] at h
    exact Except.noConfusion h
  · by_cases h2 : (!ImageSerializer.SUPPORTED_FORMATS.contains f.formatName) = true
    · rw [if_neg h1, if_pos h2] at h
      exact Except.noConfusion h
    · by_cases h3 : f.size > ImageSerializer.FILE_MAX_SIZE
      · rw [if_neg h1, if_neg h2, if_pos h3] at h
        exact Except.noConfusion h
      · rw [if_neg h1, if_neg h2, if_neg h3] at h
        exact (Except.ok.inj h).symm

/-- A failing Annotation write pipeline leaves the database as it was:
validation failures never reach the transaction and failures inside it
roll back. -/
theorem ann_run_error_state (db : DB) (raw : AnnRaw) (e : Err)
    (h : (AnnSerializer.run db raw).2 = Except.error e) :
    (AnnSerializer.run db raw).1 = db := by
  unfold AnnSerializer.run at h ⊢
  cases hv : AnnSerializer.to_internal_value db raw with
  | error e2 => rfl
  | ok v =>
    rw [hv] at h
    exact runAtomic_error_state db _ e h

/-! ## Claim theorems -/

/-- C1: for every Image create whose payload includes a nested annotation,
if the operation fails — in particular when the delegated annotation
creation (including its labels' validation) fails — then no Image row,
Annotation row or Label row from the call is persisted: the final database
equals the initial one. -/
theorem image_create_error_rolls_back (db : DB) (d : ImageData) (e : Err)
    (_hann : d.ann.isSome = true)
    (herr : (ImageSerializer.run db d).2 = Except.error e) :
    (ImageSerializer.run db d).1 = db := by
  unfold ImageSerializer.run at herr ⊢
  cases hv : ImageSerializer.run_field_validation db d with
  | error e2 => rfl
  | ok v =>
    rw [hv] at herr
    exact runAtomic_error_state db _ e herr

/-- C1 witness: a concrete Image create whose nested annotation stage fails
leaves the database untouched. -/
theorem image_create_error_rolls_back_witness :
    (ImageSerializer.run c1_db c1_data).1 = c1_db :=
  image_create_error_rolls_back c1_db c1_data Err.invalidInteger rfl rfl

/-- C2: for every Annotation create with a batch of nested label payloads,
if one label has an identifier that already exists, the entire create fails
and the final database equals the initial one: no Annotation row and no
Label row of the call remains. -/
theorem ann_create_all_or_nothing (db : DB) (d : AnnRaw) (ls : List LabelData)
    (l : LabelData) (i : String)
    (hls : d.labels = some ls) (hmem : l ∈ ls) (hid : l.id = some i)
    (hdup : db.labelIdExists i = true) :
    (∃ e, (AnnSerializer.run db d).2 = Except.error e) ∧
      (AnnSerializer.run db d).1 = db := by
  have hlerr : LabelSerializer.run_validation db l =
      Except.error (Err.duplicateIdentifier i) := by
    simp [LabelSerializer.run_validation, LabelSerializer.validate_id, hid, hdup]
  obtain ⟨e2, hml⟩ :=
    exceptMapList_error_of_mem (LabelSerializer.run_validation db) ls l _ hmem hlerr
  have hopt : optField (exceptMapList (LabelSerializer.run_validation db)) d.labels =
      Except.error e2 := by
    rw [hls]; simp [optField, hml]
  cases hii : optField IntegerField.to_internal_value d.image_id with
  | error e =>
    refine ⟨⟨e, ?_⟩, ?_⟩ <;>
      simp [AnnSerializer.run, AnnSerializer.to_internal_value, hii]
  | ok n =>
    refine ⟨⟨e2, ?_⟩, ?_⟩ <;>
      simp [AnnSerializer.run, AnnSerializer.to_internal_value, hii, hopt]

/-- C2 witness: a concrete Annotation create with one duplicate-id label
fails and leaves the database untouched. -/
theorem ann_create_all_or_nothing_witness :
    (∃ e, (AnnSerializer.run c2_db c2_raw).2 = Except.error e) ∧
      (AnnSerializer.run c2_db c2_raw).1 = c2_db :=
  ann_create_all_or_nothing c2_db c2_raw [c2_lbl] c2_lbl "a" rfl
    (List.mem_cons_self _ _) rfl rfl

/-- C3: evaluating `ImageSerializer.create` on a fresh database and an
Image payload carrying a nested annotation: the source injects the new
image's file name (the string `photo.png`) into the payload under
`image_id`, but that key is declared as an IntegerField
(serializers.py line 54), so the delegated annotation validation fails with
the invalid-integer error and the whole create rolls back — the delegated
creation never succeeds for a non-numeric stored file name. -/
theorem image_nested_ann_create_always_fails :
    ImageSerializer.run c3_db c3_data = (c3_db, Except.error Err.invalidInteger) := rfl

/-- C7: Label identifier validation fails with the duplicate-identifier
error exactly when a Label with the supplied id already exists; a payload
that omits the id is not subject to the check; and an Annotation write that
fails with a duplicate-identifier error writes no Label row. -/
theorem label_id_validation (db : DB) (i : String) (d : LabelData) :
    (db.labelIdExists i = true →
      LabelSerializer.validate_id db i = Except.error (Err.duplicateIdentifier i))
    ∧ (db.labelIdExists i = false → LabelSerializer.validate_id db i = Except.ok i)
    ∧ (d.id = none → LabelSerializer.run_validation db d = Except.ok d)
    ∧ (∀ (raw : AnnRaw) (e : Err), (AnnSerializer.run db raw).2 = Except.error e →
        (AnnSerializer.run db raw).1.labels = db.labels) := by
  refine ⟨?_, ?_, ?_, ?_⟩
  · intro h; simp [LabelSerializer.validate_id, h]
  · intro h; simp [LabelSerializer.validate_id, h]
  · intro h; simp [LabelSerializer.run_validation, h]
  · intro raw e h; rw [ann_run_error_state db raw e h]

/-- C7 witness: the duplicate id `x` is rejected, a fresh id passes, an
id-less payload passes, and the failing Annotation write leaves the Label
table untouched. -/
theorem label_id_validation_witness :
    LabelSerializer.validate_id c7_db "x" = Except.error (Err.duplicateIdentifier "x")
    ∧ LabelSerializer.validate_id c7_db "y" = Except.ok "y"
    ∧ LabelSerializer.run_validation c7_db c7_noid = Except.ok c7_noid
    ∧ (AnnSerializer.run c7_db c7_raw).1.labels = c7_db.labels :=
  ⟨(label_id_validation c7_db "x" c7_noid).1 rfl,
   (label_id_validation c7_db "y" c7_noid).2.1 rfl,
   (label_id_validation c7_db "x" c7_noid).2.2.1 rfl,
   (label_id_validation c7_db "x" c7_noid).2.2.2 c7_raw
     (Err.duplicateIdentifier "x") rfl⟩

/-- C10: rendering any Label with a serializer context that lacks the
request object fails with a KeyError on `request` instead of falling back
to full rendering: `to_representation` reads the request's query
parameters unconditionally. -/
theorem label_render_requires_request (l : LabelRow) :
    LabelSerializer.to_representation none l = Except.error (Err.keyError "request") := rfl

/-- C4 counterexample: in full mode (no `format` parameter) the rendered
Label omits the declared field `annotation_id`, which is write-only
(serializers.py line 30), so full rendering does not yield all declared
fields of `Meta.fields`. -/
theorem label_full_render_omits_declared_field :
    LabelSerializer.to_representation (some c4_req_plain) c4_lbl = Except.ok c4_full_rep
    ∧ "annotation_id" ∈ LabelSerializer.Meta_fields
    ∧ "annotation_id" ∉ c4_full_rep.map Prod.fst :=
  ⟨rfl, by decide, by decide⟩

/-- Export transform of a base Label representation: keeps `id`,
`class_id` and `surface`, joining the surface sequence. -/
theorem export_transform_base (l : LabelRow) :
    LabelSerializer.export_transform (LabelSerializer.base_representation l) =
      Except.ok [("id", PyVal.vstr l.id), ("class_id", PyVal.vstr l.class_id),
        ("surface", PyVal.vstr (joinAll l.surface))] := by
  have h : LabelSerializer.export_transform (LabelSerializer.base_representation l) =
      (match pyStrJoinList (l.surface.map PyVal.vstr) with
        | Except.error e => Except.error e
        | Except.ok s =>
            Except.ok [("id", PyVal.vstr l.id), ("class_id", PyVal.vstr l.class_id),
              ("surface", PyVal.vstr s)]) := rfl
  rw [h, pyStrJoinList_map_vstr]

/-- C4 (amended): rendering a stored Label with the `format` query
parameter equal to `export` (compared case-insensitively) yields exactly
the fields `id`, `class_id` and `surface`, with `surface` replaced by the
concatenation of its elements with no separator; with the parameter absent
or set to any other value the rendering yields all declared fields except
the write-only `annotation_id`, with `surface` as the original
sequence. -/
theorem label_render_modes (l : LabelRow) (req : Request) :
    (pyLower (req.getParam "format" "") ≠ LabelSerializer.EXPORT_FORMAT_KEY →
      LabelSerializer.to_representation (some req) l =
        Except.ok [("id", PyVal.vstr l.id), ("class_id", PyVal.vstr l.class_id),
          ("surface", PyVal.vlist (l.surface.map PyVal.vstr)),
          ("shape", PyVal.vstr l.shape), ("meta", PyVal.vstr l.meta)])
    ∧ (pyLower (req.getParam "format" "") = LabelSerializer.EXPORT_FORMAT_KEY →
      LabelSerializer.to_representation (some req) l =
        Except.ok [("id", PyVal.vstr l.id), ("class_id", PyVal.vstr l.class_id),
          ("surface", PyVal.vstr (joinAll l.surface))]) := by
  constructor
  · intro h
    have hb : (pyLower (req.getParam "format" "") ==
        LabelSerializer.EXPORT_FORMAT_KEY) = false := beq_eq_false_iff_ne.mpr h
    simp [LabelSerializer.to_representation, LabelSerializer.base_representation, hb]
  · intro h
    have hb : (pyLower (req.getParam "format" "") ==
        LabelSerializer.EXPORT_FORMAT_KEY) = true := beq_iff_eq.mpr h
    simp only [LabelSerializer.to_representation, hb, if_true]
    exact export_transform_base l

/-- C4 witness: the Label with surface `A`, `B`, `C` renders under
`format=EXPORT` with surface joined to `ABC` and only the export fields;
without the parameter it renders the five readable fields with the
original sequence. -/
theorem label_render_modes_witness :
    LabelSerializer.to_representation (some c4_req_export) c4_lbl =
      Except.ok [("id", PyVal.vstr "u9"), ("class_id", PyVal.vstr "tree"),
        ("surface", PyVal.vstr "ABC")]
    ∧ LabelSerializer.to_representation (some c4_req_plain) c4_lbl = Except.ok c4_full_rep :=
  ⟨(label_render_modes c4_lbl c4_req_export).2 rfl,
   (label_render_modes c4_lbl c4_req_plain).1 (by decide)⟩

/-- C5: `validate_file` runs its three checks in order — duplicate
normalized filename first, then the format allow-list (the error carrying
the offending format and the supported-format list), then the size check —
an earlier failure preempting the later checks; and a second upload whose
name normalizes to the same value as an already persisted one fails with
the duplicate error while the first upload remains persisted. -/
theorem validate_file_check_order :
    (∀ (db : DB) (f : UploadedFile), db.imageExists (get_valid_filename f.name) = true →
      ImageSerializer.validate_file db f = Except.error Err.duplicateFile)
    ∧ (∀ (db : DB) (f : UploadedFile), db.imageExists (get_valid_filename f.name) = false →
      ImageSerializer.SUPPORTED_FORMATS.contains f.formatName = false →
      ImageSerializer.validate_file db f =
        Except.error (Err.unsupportedFormat f.formatName ImageSerializer.SUPPORTED_FORMATS))
    ∧ (∀ (db : DB) (f : UploadedFile), db.imageExists (get_valid_filename f.name) = false →
      ImageSerializer.SUPPORTED_FORMATS.contains f.formatName = true →
      ImageSerializer.FILE_MAX_SIZE < f.size →
      ImageSerializer.validate_file db f = Except.error Err.fileTooLarge)
    ∧ (∀ (db : DB) (f g : UploadedFile) (s : String),
      get_valid_filename f.name = get_valid_filename g.name →
      (ImageSerializer.run db { file := f, ann := none }).2 = Except.ok s →
      ImageSerializer.run (ImageSerializer.run db { file := f, ann := none }).1
          { file := g, ann := none } =
        ((ImageSerializer.run db { file := f, ann := none }).1,
          Except.error Err.duplicateFile)
      ∧ s ∈ (ImageSerializer.run db { file := f, ann := none }).1.images) := by
  refine ⟨?_, ?_, ?_, ?_⟩
  · intro db f h
    unfold ImageSerializer.validate_file
    rw [if_pos h]
  · intro db f h1 h2
    unfold ImageSerializer.validate_file
    rw [if_neg (by rw [h1]; decide), if_pos (by rw [h2]; decide)]
  · intro db f h1 h2 h3
    unfold ImageSerializer.validate_file
    rw [if_neg (by rw [h1]; decide), if_neg (by rw [h2]; decide), if_pos h3]
  · intro db f g s hname hok
    cases hvf : ImageSerializer.validate_file db f with
    | error e =>
      exfalso
      have herr : (ImageSerializer.run db { file := f, ann := none }).2 =
          Except.error e := by
        simp [ImageSerializer.run, ImageSerializer.run_field_validation, hvf]
      exact Except.noConfusion (herr.symm.trans hok)
    | ok f2 =>
      have hvf2 : ImageSerializer.validate_file db f = Except.ok f := by
        rw [hvf, validate_file_ok_eq db f f2 hvf]
      have hrun1 : ImageSerializer.run db { file := f, ann := none } =
          ({ db with images := db.images ++ [get_valid_filename f.name] },
            Except.ok (get_valid_filename f.name)) := by
        simp [ImageSerializer.run, ImageSerializer.run_field_validation, hvf2, optField,
          ImageSerializer.create, ImageSerializer.create_body, runAtomic]
      have hs : s = get_valid_filename f.name := by
        rw [hrun1] at hok
        exact (Except.ok.inj hok).symm
      have hdup : DB.imageExists
          { db with images := db.images ++ [get_valid_filename f.name] }
          (get_valid_filename g.name) = true := by
        simp [DB.imageExists, ← hname]
      constructor
      · rw [hrun1]
        simp [ImageSerializer.run, ImageSerializer.run_field_validation,
          ImageSerializer.validate_file, hdup]
      · rw [hrun1, hs]
        simp

/-- C5 witness: the three failure modes at concrete files, and the
two-upload scenario for `a b.png` then ` a_b.png`, whose names both
normalize to `a_b.png`. -/
theorem validate_file_check_order_witness :
    ImageSerializer.validate_file c5_dupdb c5_f = Except.error Err.duplicateFile
    ∧ ImageSerializer.validate_file c5_db c5_gif =
        Except.error (Err.unsupportedFormat "GIF" ImageSerializer.SUPPORTED_FORMATS)
    ∧ ImageSerializer.validate_file c5_db c5_huge = Except.error Err.fileTooLarge
    ∧ (ImageSerializer.run (ImageSerializer.run c5_db { file := c5_f, ann := none }).1
          { file := c5_g, ann := none } =
        ((ImageSerializer.run c5_db { file := c5_f, ann := none }).1,
          Except.error Err.duplicateFile)
      ∧ "a_b.png" ∈ (ImageSerializer.run c5_db { file := c5_f, ann := none }).1.images) :=
  ⟨validate_file_check_order.1 c5_dupdb c5_f rfl,
   validate_file_check_order.2.1 c5_db c5_gif rfl rfl,
   validate_file_check_order.2.2.1 c5_db c5_huge rfl rfl (by decide),
   validate_file_check_order.2.2.2 c5_db c5_f c5_g "a_b.png" rfl rfl⟩

/-- C6: once the duplicate and format checks pass, validation fails with
the file-too-large error exactly when the byte size strictly exceeds
20 × 1024 × 1024, and succeeds exactly when it is at most that bound (the
boundary is inclusive). -/
theorem file_size_boundary (db : DB) (f : UploadedFile)
    (hdup : db.imageExists (get_valid_filename f.name) = false)
    (hfmt : ImageSerializer.SUPPORTED_FORMATS.contains f.formatName = true) :
    (ImageSerializer.validate_file db f = Except.error Err.fileTooLarge ↔
      20 * 1024 * 1024 < f.size)
    ∧ (ImageSerializer.validate_file db f = Except.ok f ↔ f.size ≤ 20 * 1024 * 1024) := by
  have hv : ImageSerializer.validate_file db f =
      (if 20 * 1024 * 1024 < f.size then Except.error Err.fileTooLarge
       else Except.ok f) := by
    unfold ImageSerializer.validate_file
    rw [if_neg (by rw [hdup]; decide), if_neg (by rw [hfmt]; decide)]
    rfl
  by_cases hsz : 20 * 1024 * 1024 < f.size
  · rw [hv, if_pos hsz]
    refine ⟨⟨fun _ => hsz, fun _ => rfl⟩, ⟨fun h => Except.noConfusion h, fun hle => ?_⟩⟩
    exact absurd hsz (not_lt.mpr hle)
  · rw [hv, if_neg hsz]
    refine ⟨⟨fun h => Except.noConfusion h, fun hlt => absurd hlt hsz⟩,
      ⟨fun _ => not_lt.mp hsz, fun _ => rfl⟩⟩

/-- C6 witness: a file of exactly 20 × 1024 × 1024 bytes passes validation
and one of 20 × 1024 × 1024 + 1 bytes fails with the file-too-large
error. -/
theorem file_size_boundary_witness :
    ImageSerializer.validate_file c6_db c6_small = Except.ok c6_small
    ∧ ImageSerializer.validate_file c6_db c6_big = Except.error Err.fileTooLarge :=
  ⟨(file_size_boundary c6_db c6_small rfl rfl).2.mpr (by decide),
   (file_size_boundary c6_db c6_big rfl rfl).1.mpr (by decide)⟩

/-- C8 counterexample: rendering a stored Annotation that owns one Label
yields a representation that does contain the `labels` key: the `labels`
field is not declared write-only (serializers.py line 55), so it is
rendered. -/
theorem ann_render_contains_labels_key :
    AnnSerializer.to_representation (some c8_req) c8_db c8_row = Except.ok c8_rep
    ∧ "labels" ∈ c8_rep.map Prod.fst :=
  ⟨rfl, by decide⟩

/-- C8 (amended): every successful Annotation rendering has exactly the
key `labels` — `image_id` is write-only and never rendered, while `labels`
is readable and always present, holding the nested Label renderings. -/
theorem ann_render_only_labels_key (ctx : Option Request) (db : DB) (a : AnnRow)
    (rep : List (String × PyVal))
    (h : AnnSerializer.to_representation ctx db a = Except.ok rep) :
    rep.map Prod.fst = ["labels"] := by
  unfold AnnSerializer.to_representation at h
  split at h
  · simp at h
  · injection h with h2
    rw [← h2]
    rfl

/-- C8 witness: the concrete rendering above has exactly the `labels`
key. -/
theorem ann_render_only_labels_key_witness :
    c8_rep.map Prod.fst = ["labels"] :=
  ann_render_only_labels_key (some c8_req) c8_db c8_row c8_rep rfl

/-- C9: on a multipart payload whose values all arrive as list
containers, input normalization replaces each non-empty value by its first
element and leaves empty values (and the key set) unchanged. -/
theorem multipart_unwrap_normalizes (data : List (String × PyVal))
    (h : ∀ kv ∈ data, ∃ l, kv.2 = PyVal.vlist l) :
    ImageSerializer.unwrap_multipart data =
      Except.ok (data.map (fun kv =>
        match kv.2 with
        | PyVal.vlist (x :: _) => (kv.1, x)
        | _ => kv)) := by
  induction data with
  | nil => rfl
  | cons kv rest ih =>
    obtain ⟨l, hl⟩ := h kv (List.mem_cons_self _ _)
    have hrest := ih (fun kv2 hm => h kv2 (List.mem_cons_of_mem _ hm))
    obtain ⟨k, v⟩ := kv
    dsimp only at hl
    subst hl
    cases l with
    | nil =>
      simp only [ImageSerializer.unwrap_multipart] at hrest ⊢
      exact exceptMapList_cons_ok _ _ _ _ _ rfl hrest
    | cons x xs =>
      simp only [ImageSerializer.unwrap_multipart] at hrest ⊢
      exact exceptMapList_cons_ok _ _ _ _ _ rfl hrest

/-- C9 witness: a concrete payload with a wrapped file and an empty list
value: the file is unwrapped, the empty value kept. -/
theorem multipart_unwrap_normalizes_witness :
    ImageSerializer.unwrap_multipart c9_data =
      Except.ok [("file", PyVal.vfile { name := "a.png", formatName := "PNG", size := 5 }),
        ("extra", PyVal.vlist [])] :=
  multipart_unwrap_normalizes c9_data (by
    intro kv hkv
    simp only [c9_data, List.mem_cons, List.not_mem_nil, or_false] at hkv
    rcases hkv with rfl | rfl
    · exact ⟨_, rfl⟩
    · exact ⟨_, rfl⟩)

end ImageStore
